import Mathlib

/-!
Verification of the connectivity supervisor of `app.py` (wifi-setup-rpi-zero2w).

The Python program is shallowly embedded below.  Timestamps are modelled as
integers (`time.time()` values), durations and configuration values as natural
numbers, and the effectful pieces (subprocess calls, sleeps, the connectivity
probe) are replaced by explicit oracle inputs and event counts.  The embedded
definitions keep the source's names (`calculate_backoff`, `record_ap_restart`,
`safe_restart_ap`, `background_connect`, `sanitize_output`, ...) and mirror its
control flow line by line.
-/

namespace WifiSetup

/-- Environment-derived configuration of `app.py` (lines 17-28).  Each field is
read from the environment with the documented default. -/
structure Config where
  CONNECTION_WAIT_TIME : Nat
  MONITOR_INTERVAL : Nat
  CONNECTION_RETRIES : Nat
  RETRY_DELAY : Nat
  MAX_RESTARTS_PER_WINDOW : Nat
  RESTART_WINDOW : Nat
  BACKOFF_BASE : Nat
  MAX_BACKOFF : Nat
deriving DecidableEq

/-- The default configuration values of `app.py` lines 19-28. -/
def defaultConfig : Config :=
  { CONNECTION_WAIT_TIME := 10
    MONITOR_INTERVAL := 30
    CONNECTION_RETRIES := 1
    RETRY_DELAY := 5
    MAX_RESTARTS_PER_WINDOW := 3
    RESTART_WINDOW := 300
    BACKOFF_BASE := 6
    MAX_BACKOFF := 3600 }

/-- `calculate_backoff` (app.py lines 65-87).  `now` stands for the
`time.time()` call on line 71; the restart history is the list of recorded
restart timestamps.  The source filters the history to timestamps strictly
newer than `now - RESTART_WINDOW`, and applies the capped exponential backoff
once the in-window count reaches `MAX_RESTARTS_PER_WINDOW`. -/
def calculate_backoff (cfg : Config) (now : Int) (restart_history : List Int) : Nat :=
  let cutoff_time : Int := now - (cfg.RESTART_WINDOW : Int)
  let recent_restarts := restart_history.filter (fun t => cutoff_time < t)
  let restart_count := recent_restarts.length
  if cfg.MAX_RESTARTS_PER_WINDOW ≤ restart_count then
    let excess_restarts := restart_count - cfg.MAX_RESTARTS_PER_WINDOW + 1
    let backoff := cfg.RETRY_DELAY * cfg.BACKOFF_BASE ^ excess_restarts
    min backoff cfg.MAX_BACKOFF
  else
    0

/-- The number of recorded restarts lying inside the trailing
`RESTART_WINDOW` at time `now` (the `restart_count` of app.py line 76). -/
def recent_count (cfg : Config) (now : Int) (restart_history : List Int) : Nat :=
  (restart_history.filter (fun t => now - (cfg.RESTART_WINDOW : Int) < t)).length

/-- The connection-monitor state values of app.py line 43. -/
inductive MState where
  | CONNECTED
  | CONNECTING
  | FAILED
  | MONITORING
  | AP_MODE
  | DISCONNECTED
deriving DecidableEq

/-- `connection_monitor_state` (app.py lines 42-50), restricted to the fields
the core state machine reads and writes (the thread handle and stop event are
scheduling plumbing). -/
structure MonState where
  state : MState
  monitor_active : Bool
  last_ssid : Option String
  restart_history : List Int
  current_backoff : Nat
deriving DecidableEq

/-- `connection_state` (app.py lines 31-37): the shared record describing the
most recent manual connection attempt. -/
structure ConnState where
  in_progress : Bool
  ssid : Option String
  timestamp : Option Int
  success : Option Bool
  error : Option String
deriving DecidableEq

/-- The initial `connection_state` of app.py lines 31-37. -/
def initialConnState : ConnState :=
  { in_progress := false, ssid := none, timestamp := none, success := none, error := none }

/-- The initial `connection_monitor_state` of app.py lines 42-50. -/
def initialMonState : MonState :=
  { state := MState.DISCONNECTED, monitor_active := false, last_ssid := none
    restart_history := [], current_backoff := 0 }

/-- `record_ap_restart` (app.py lines 90-107): append the current time to the
restart history, prune entries older than the window, and cache the freshly
computed backoff. -/
def record_ap_restart (cfg : Config) (now : Int) (m : MonState) : MonState :=
  let hist := m.restart_history ++ [now]
  let cutoff_time : Int := now - (cfg.RESTART_WINDOW : Int)
  let hist' := hist.filter (fun t => cutoff_time < t)
  { m with restart_history := hist'
           current_backoff := calculate_backoff cfg now hist' }

/-- `safe_restart_ap` (app.py lines 116-139), success path: record the restart,
read the cached backoff, sleep for it, stop and start the AP, and mark the
state `AP_MODE`.  The returned `Nat` is the backoff delay that was applied
(the `time.sleep(backoff)` of line 130); the AP stop/start subprocess calls
are modelled as succeeding. -/
def safe_restart_ap (cfg : Config) (now : Int) (m : MonState) : MonState × Nat :=
  let m1 := record_ap_restart cfg now m
  let backoff := m1.current_backoff
  ({ m1 with state := MState.AP_MODE }, backoff)

/-- The body of one `connection_monitor_loop` iteration (app.py lines 186-198):
given the current state and the probe result, return the new state and whether
`safe_restart_ap` must run. -/
def monitorStep (s : MState) (connected : Bool) : MState × Bool :=
  if s = MState.MONITORING ∧ connected = false then
    (MState.DISCONNECTED, true)
  else if s = MState.CONNECTED ∧ connected = true then
    (MState.MONITORING, false)
  else
    (s, false)

/-- One full pass of the supervisor loop (app.py lines 186-202): the locked
state update followed, when the drop branch fired, by `safe_restart_ap`.
Returns the new monitor state, the backoff delay applied, and whether an AP
start was performed during this pass. -/
def monitorIter (cfg : Config) (now : Int) (m : MonState) (connected : Bool) :
    MonState × Nat × Bool :=
  let sr := monitorStep m.state connected
  let m' := { m with state := sr.1 }
  if sr.2 then
    let rb := safe_restart_ap cfg now m'
    (rb.1, rb.2, true)
  else
    (m', 0, false)

/-- Oracle input for one iteration of the retry loop of `background_connect`:
the outcome of the `connect_to_network` call (`joinOk`, with its stderr text)
and the `is_connected()` probe taken after the stabilization sleep. -/
structure AttemptInput where
  joinOk : Bool
  stderr : String
  probe : Bool
deriving DecidableEq

/-- Python `str.strip()` on the stderr text (app.py line 441), modelled as
trimming whitespace characters from both ends. -/
def pyStrip (s : String) : String :=
  String.mk (((s.data.dropWhile (fun c => c.isWhitespace)).reverse.dropWhile
    (fun c => c.isWhitespace)).reverse)

/-- The distinguishing error of app.py line 453. -/
def verifyFailMsg : String := "Connection established but verification failed"

/-- Result of the retry loop of `background_connect` (app.py lines 430-455):
the final `success` flag, the final `last_error`, and the number of
`connect_to_network` invocations performed. -/
structure LoopResult where
  success : Bool
  last_error : Option String
  joins : Nat
deriving DecidableEq

/-- The retry loop of `background_connect` (app.py lines 430-455), driven by
the list of per-iteration oracle inputs (one entry per iteration of
`range(CONNECTION_RETRIES + 1)`).  Each iteration performs one
`connect_to_network` call; on a reported success it sleeps
`CONNECTION_WAIT_TIME` and re-probes, breaking out on agreement and otherwise
downgrading to failure with `verifyFailMsg`; on failure it records the
stripped stderr and continues to the next iteration, if any. -/
def runRetryLoop : List AttemptInput → LoopResult
  | [] => { success := false, last_error := none, joins := 0 }
  | a :: rest =>
    if a.joinOk then
      if a.probe then
        { success := true, last_error := none, joins := 1 }
      else if rest = [] then
        { success := false, last_error := some verifyFailMsg, joins := 1 }
      else
        let r := runRetryLoop rest
        { success := r.success, last_error := r.last_error, joins := r.joins + 1 }
    else if rest = [] then
      { success := false, last_error := some (pyStrip a.stderr), joins := 1 }
    else
      let r := runRetryLoop rest
      { success := r.success, last_error := r.last_error, joins := r.joins + 1 }

/-- Result of one `background_connect` run: whether the attempt-exclusivity
lock was acquired, the final shared connection state and monitor state, and
the number of `connect_to_network` calls and of `start_ap` invocations
performed by this worker. -/
structure RunResult where
  acquired : Bool
  conn : ConnState
  mon : MonState
  joins : Nat
  apStarts : Nat
deriving DecidableEq

/-- `background_connect` (app.py lines 405-484).  `lockHeld` tells whether the
attempt-exclusivity lock is already held by another worker when this one
reaches the non-blocking `acquire` of line 410 (in which case the function
logs a warning and returns at once, touching nothing).  `now` stands for
`time.time()`, `oracle i` supplies the outcome of retry iteration `i`, and
`c`/`m` are the shared connection state and monitor state at entry.  On a
successful run the monitor state is set to `CONNECTED`, the restart history is
cleared and the monitor restarted; on a failed run the state is set to
`FAILED` and the worker itself runs `safe_restart_ap` (which stops and starts
the AP). -/
def background_connect (cfg : Config) (ssid : String) (now : Int)
    (oracle : Nat → AttemptInput) (lockHeld : Bool)
    (c : ConnState) (m : MonState) : RunResult :=
  if lockHeld then
    { acquired := false, conn := c, mon := m, joins := 0, apStarts := 0 }
  else
    let c1 : ConnState :=
      { in_progress := true, ssid := some ssid, timestamp := some now
        success := none, error := none }
    let m1 := { m with state := MState.CONNECTING, last_ssid := some ssid
                       monitor_active := false }
    let attempts := (List.range (cfg.CONNECTION_RETRIES + 1)).map oracle
    let r := runRetryLoop attempts
    let c2 := { c1 with in_progress := false, success := some r.success
                        error := r.last_error }
    if r.success then
      let m2 := { m1 with state := MState.CONNECTED, restart_history := []
                          current_backoff := 0, monitor_active := true }
      { acquired := true, conn := c2, mon := m2, joins := r.joins, apStarts := 0 }
    else
      let m2 := { m1 with state := MState.FAILED }
      let m3 := (safe_restart_ap cfg now m2).1
      { acquired := true, conn := c2, mon := m3, joins := r.joins, apStarts := 1 }

/-- The redaction marker of `sanitize_output` (app.py line 267). -/
def redactMarker : String := "***REDACTED***"

/-- Left-to-right non-overlapping replacement scan underlying Python
`str.replace` (app.py line 267), on character lists.  The `Nat` argument is
the number of characters still to skip after an accepted match. -/
def replAux (p R : List Char) : Nat → List Char → List Char
  | _, [] => []
  | 0, c :: rest =>
    if p.isPrefixOf (c :: rest) then
      R ++ replAux p R (p.length - 1) rest
    else
      c :: replAux p R 0 rest
  | k + 1, _ :: rest => replAux p R k rest

/-- Python `s.replace(p, R)` for a non-empty pattern `p`: replace every
non-overlapping occurrence of `p`, scanning left to right. -/
def pyReplace (p R s : List Char) : List Char :=
  replAux p R 0 s

/-- `sanitize_output` (app.py lines 262-267): falsy (empty) output is returned
unchanged, otherwise every occurrence of the configured AP passphrase is
replaced by `***REDACTED***`.  The passphrase `pw` is the `AP_PASSWORD`
environment value. -/
def sanitize_output (pw output : String) : String :=
  if output = "" then output
  else String.mk (pyReplace pw.data redactMarker.data output.data)

/-- The `error` field of the `/check_status` JSON export (app.py line 502):
`sanitize_output(conn_state['error']) if conn_state['error'] else None`. -/
def check_status_error (pw : String) (c : ConnState) : Option String :=
  match c.error with
  | some e => if e = "" then none else some (sanitize_output pw e)
  | none => none

/-- `calculate_backoff` characterized through `recent_count`. -/
theorem calculate_backoff_eq (cfg : Config) (now : Int) (h : List Int) :
    calculate_backoff cfg now h =
      if cfg.MAX_RESTARTS_PER_WINDOW ≤ recent_count cfg now h then
        min (cfg.RETRY_DELAY *
            cfg.BACKOFF_BASE ^ (recent_count cfg now h - cfg.MAX_RESTARTS_PER_WINDOW + 1))
          cfg.MAX_BACKOFF
      else 0 := rfl

/-- C1: `calculate_backoff` returns zero when the number of restart timestamps
within the trailing `RESTART_WINDOW` is below `MAX_RESTARTS_PER_WINDOW`, and
otherwise returns `min(RETRY_DELAY * BACKOFF_BASE ^ excess, MAX_BACKOFF)`
where `excess` counts the in-window restarts from the threshold-reaching one
onward (`count - MAX_RESTARTS_PER_WINDOW + 1`, which is `1` exactly when the
count equals the threshold, as in the claim's example).  With restarts at
t = 0, 10, 20 and the default configuration (`MAX_RESTARTS_PER_WINDOW = 3`,
`RESTART_WINDOW = 300`, `RETRY_DELAY = 5`, `BACKOFF_BASE = 6`), a computation
at t = 21 sees 3 in-window restarts, hence `excess = 1` and backoff `30`. -/
theorem C1_calculate_backoff_spec :
    (∀ (cfg : Config) (now : Int) (h : List Int),
      calculate_backoff cfg now h =
        if recent_count cfg now h < cfg.MAX_RESTARTS_PER_WINDOW then 0
        else
          min (cfg.RETRY_DELAY *
              cfg.BACKOFF_BASE ^ (recent_count cfg now h - cfg.MAX_RESTARTS_PER_WINDOW + 1))
            cfg.MAX_BACKOFF)
    ∧ recent_count defaultConfig 21 [0, 10, 20] = 3
    ∧ recent_count defaultConfig 21 [0, 10, 20] - defaultConfig.MAX_RESTARTS_PER_WINDOW + 1 = 1
    ∧ calculate_backoff defaultConfig 21 [0, 10, 20] = 30 := by
  refine ⟨?_, by decide, by decide, by decide⟩
  intro cfg now h
  rw [calculate_backoff_eq]
  by_cases hc : cfg.MAX_RESTARTS_PER_WINDOW ≤ recent_count cfg now h
  · rw [if_pos hc, if_neg (by omega)]
  · rw [if_neg hc, if_pos (by omega)]

/-- C2: whenever the in-window restart count reaches `MAX_RESTARTS_PER_WINDOW`,
the computed backoff is strictly positive; the backoff never exceeds
`MAX_BACKOFF`; and it is non-decreasing in the in-window restart count (hence
in the excess count).  The positivity hypotheses hold for the configuration
defaults (`RETRY_DELAY = 5`, `BACKOFF_BASE = 6`, `MAX_BACKOFF = 3600`). -/
theorem C2_backoff_positive_monotone_capped (cfg : Config)
    (h₁ h₂ : List Int) (t₁ t₂ : Int)
    (hrd : 1 ≤ cfg.RETRY_DELAY) (hbb : 1 ≤ cfg.BACKOFF_BASE)
    (hmb : 1 ≤ cfg.MAX_BACKOFF) :
    (cfg.MAX_RESTARTS_PER_WINDOW ≤ recent_count cfg t₁ h₁ →
      0 < calculate_backoff cfg t₁ h₁)
    ∧ calculate_backoff cfg t₁ h₁ ≤ cfg.MAX_BACKOFF
    ∧ (cfg.MAX_RESTARTS_PER_WINDOW ≤ recent_count cfg t₁ h₁ →
        recent_count cfg t₁ h₁ ≤ recent_count cfg t₂ h₂ →
        calculate_backoff cfg t₁ h₁ ≤ calculate_backoff cfg t₂ h₂) := by
  refine ⟨?_, ?_, ?_⟩
  · intro hge
    rw [calculate_backoff_eq, if_pos hge]
    have hpow : 1 ≤ cfg.BACKOFF_BASE ^
        (recent_count cfg t₁ h₁ - cfg.MAX_RESTARTS_PER_WINDOW + 1) :=
      Nat.one_le_pow _ _ (by omega)
    exact lt_min (by nlinarith) (by omega)
  · rw [calculate_backoff_eq]
    by_cases hc : cfg.MAX_RESTARTS_PER_WINDOW ≤ recent_count cfg t₁ h₁
    · rw [if_pos hc]; exact min_le_right _ _
    · rw [if_neg hc]; exact Nat.zero_le _
  · intro hge₁ hle
    rw [calculate_backoff_eq, calculate_backoff_eq, if_pos hge₁, if_pos (by omega)]
    refine min_le_min (Nat.mul_le_mul_left _ ?_) le_rfl
    exact Nat.pow_le_pow_right (by omega) (by omega)

/-- Witness for C2 at the default configuration: histories `[0,10,20]` and
`[0,10,20,21]` at time 21 have in-window counts 3 and 4. -/
theorem C2_witness :
    (defaultConfig.MAX_RESTARTS_PER_WINDOW ≤ recent_count defaultConfig 21 [0, 10, 20] →
      0 < calculate_backoff defaultConfig 21 [0, 10, 20])
    ∧ calculate_backoff defaultConfig 21 [0, 10, 20] ≤ defaultConfig.MAX_BACKOFF
    ∧ (defaultConfig.MAX_RESTARTS_PER_WINDOW ≤ recent_count defaultConfig 21 [0, 10, 20] →
        recent_count defaultConfig 21 [0, 10, 20] ≤ recent_count defaultConfig 21 [0, 10, 20, 21] →
        calculate_backoff defaultConfig 21 [0, 10, 20] ≤
          calculate_backoff defaultConfig 21 [0, 10, 20, 21]) :=
  C2_backoff_positive_monotone_capped defaultConfig [0, 10, 20] [0, 10, 20, 21] 21 21
    (by decide) (by decide) (by decide)

/-- C10: a `background_connect` run that finds the attempt-exclusivity lock
already held returns at once leaving the entire shared connection state (and
the monitor state) untouched, performing no join and no AP start. -/
theorem C10_rejected_attempt_frame (cfg : Config) (ssid : String) (now : Int)
    (oracle : Nat → AttemptInput) (c : ConnState) (m : MonState) :
    (background_connect cfg ssid now oracle true c m).conn = c
    ∧ (background_connect cfg ssid now oracle true c m).mon = m
    ∧ (background_connect cfg ssid now oracle true c m).joins = 0
    ∧ (background_connect cfg ssid now oracle true c m).apStarts = 0
    ∧ (background_connect cfg ssid now oracle true c m).acquired = false :=
  ⟨rfl, rfl, rfl, rfl, rfl⟩

/-- Every run of the retry loop performs at least one join. -/
theorem runRetryLoop_joins_pos (a : AttemptInput) (rest : List AttemptInput) :
    1 ≤ (runRetryLoop (a :: rest)).joins := by
  simp only [runRetryLoop]
  split
  · split
    · simp
    · split
      · simp
      · simp
  · split
    · simp
    · simp

/-- The retry loop performs at most one join per scheduled iteration. -/
theorem runRetryLoop_joins_le : ∀ l : List AttemptInput,
    (runRetryLoop l).joins ≤ l.length := by
  intro l
  induction l with
  | nil => simp [runRetryLoop]
  | cons a rest ih =>
    simp only [runRetryLoop, List.length_cons]
    split
    · split
      · simp
      · split
        · simp
        · simpa using ih
    · split
      · simp
      · simpa using ih

/-- A first attempt whose join succeeds and whose re-probe agrees ends the
loop immediately with a single join. -/
theorem runRetryLoop_first_ok (a : AttemptInput) (rest : List AttemptInput)
    (hj : a.joinOk = true) (hp : a.probe = true) :
    runRetryLoop (a :: rest) = { success := true, last_error := none, joins := 1 } := by
  simp [runRetryLoop, hj, hp]

/-- A run of the retry loop that ends in failure consumed every scheduled
iteration: the number of joins equals the schedule length. -/
theorem runRetryLoop_failure_joins : ∀ l : List AttemptInput,
    (runRetryLoop l).success = false → (runRetryLoop l).joins = l.length := by
  intro l
  induction l with
  | nil => simp [runRetryLoop]
  | cons a rest ih =>
    by_cases hj : a.joinOk = true
    · by_cases hp : a.probe = true
      · simp [runRetryLoop, hj, hp]
      · by_cases hrest : rest = []
        · simp [runRetryLoop, hj, hp, hrest]
        · intro hs
          have hs' : (runRetryLoop rest).success = false := by
            simpa [runRetryLoop, hj, hp, hrest] using hs
          simp [runRetryLoop, hj, hp, hrest, ih hs']
    · by_cases hrest : rest = []
      · simp [runRetryLoop, hj, hrest]
      · intro hs
        have hs' : (runRetryLoop rest).success = false := by
          simpa [runRetryLoop, hj, hrest] using hs
        simp [runRetryLoop, hj, hrest, ih hs']

/-- A retry loop that reports overall success contains an attempt whose join
succeeded and whose re-probe agreed. -/
theorem runRetryLoop_success_exists : ∀ l : List AttemptInput,
    (runRetryLoop l).success = true →
    ∃ x ∈ l, x.joinOk = true ∧ x.probe = true := by
  intro l
  induction l with
  | nil => simp [runRetryLoop]
  | cons a rest ih =>
    simp only [runRetryLoop]
    split
    · split
      · next hj hp => exact fun _ => ⟨a, by simp, hj, hp⟩
      · split
        · simp
        · intro hs
          obtain ⟨x, hx, hxx⟩ := ih (by simpa using hs)
          exact ⟨x, by simp [hx], hxx⟩
    · split
      · simp
      · intro hs
        obtain ⟨x, hx, hxx⟩ := ih (by simpa using hs)
        exact ⟨x, by simp [hx], hxx⟩

/-- If every scheduled attempt has a succeeding join whose re-probe disagrees,
the retry loop consumes the whole schedule and ends in failure with the
distinguishing verification error. -/
theorem runRetryLoop_all_mismatch : ∀ l : List AttemptInput, l ≠ [] →
    (∀ x ∈ l, x.joinOk = true ∧ x.probe = false) →
    runRetryLoop l = { success := false, last_error := some verifyFailMsg
                       joins := l.length } := by
  intro l
  induction l with
  | nil => intro h; exact absurd rfl h
  | cons a rest ih =>
    intro _ hall
    have ha := hall a (by simp)
    rcases hall a (by simp) with ⟨hj, hp⟩
    by_cases hrest : rest = []
    · subst hrest; simp [runRetryLoop, hj, hp]
    · have := ih hrest (fun x hx => hall x (by simp [hx]))
      simp [runRetryLoop, hj, hp, hrest, this]

/-- `background_connect` on a free lock, written out: the worker overwrites
the shared connection state, runs the retry loop, and either clears the
breaker and reconnects the monitor (success) or marks `FAILED` and restarts
the AP itself (failure). -/
theorem background_connect_run (cfg : Config) (ssid : String) (now : Int)
    (oracle : Nat → AttemptInput) (c : ConnState) (m : MonState) :
    background_connect cfg ssid now oracle false c m =
      (let r := runRetryLoop ((List.range (cfg.CONNECTION_RETRIES + 1)).map oracle)
       let c2 : ConnState :=
         { in_progress := false, ssid := some ssid, timestamp := some now
           success := some r.success, error := r.last_error }
       let m1 := { m with state := MState.CONNECTING, last_ssid := some ssid
                          monitor_active := false }
       if r.success then
         { acquired := true, conn := c2
           mon := { m1 with state := MState.CONNECTED, restart_history := []
                            current_backoff := 0, monitor_active := true }
           joins := r.joins, apStarts := 0 }
       else
         { acquired := true, conn := c2
           mon := (safe_restart_ap cfg now { m1 with state := MState.FAILED }).1
           joins := r.joins, apStarts := 1 }) := rfl

/-- Starting from an empty restart history, the backoff applied by the next
`safe_restart_ap` is zero as soon as the restart threshold is at least 2. -/
theorem safe_restart_ap_backoff_after_clear (cfg : Config) (t' : Int)
    (m : MonState) (hm : m.restart_history = [])
    (hmax : 2 ≤ cfg.MAX_RESTARTS_PER_WINDOW) :
    (safe_restart_ap cfg t' m).2 = 0 := by
  simp only [safe_restart_ap, record_ap_restart, hm, List.nil_append]
  rw [calculate_backoff_eq, if_neg]
  intro hge
  have h2 := List.length_filter_le (fun t : Int => decide (t' - (cfg.RESTART_WINDOW : Int) < t))
      (List.filter (fun t : Int => decide (t' - (cfg.RESTART_WINDOW : Int) < t)) [t'])
  have h3 := List.length_filter_le (fun t : Int => decide (t' - (cfg.RESTART_WINDOW : Int) < t)) [t']
  simp only [recent_count] at hge
  simp only [List.length_singleton] at h3
  omega

/-- `background_connect` on a free lock: the number of joins performed is the
retry loop's join count, in both the success and the failure branch. -/
theorem background_connect_joins (cfg : Config) (ssid : String) (now : Int)
    (oracle : Nat → AttemptInput) (c : ConnState) (m : MonState) :
    (background_connect cfg ssid now oracle false c m).joins =
      (runRetryLoop ((List.range (cfg.CONNECTION_RETRIES + 1)).map oracle)).joins := by
  rw [background_connect_run]
  by_cases hs : (runRetryLoop ((List.range (cfg.CONNECTION_RETRIES + 1)).map oracle)).success = true
  · simp [hs]
  · simp [hs]

/-- `background_connect` on a free lock: the final shared connection state. -/
theorem background_connect_conn (cfg : Config) (ssid : String) (now : Int)
    (oracle : Nat → AttemptInput) (c : ConnState) (m : MonState) :
    (background_connect cfg ssid now oracle false c m).conn =
      { in_progress := false, ssid := some ssid, timestamp := some now
        success := some (runRetryLoop ((List.range (cfg.CONNECTION_RETRIES + 1)).map oracle)).success
        error := (runRetryLoop ((List.range (cfg.CONNECTION_RETRIES + 1)).map oracle)).last_error } := by
  rw [background_connect_run]
  by_cases hs : (runRetryLoop ((List.range (cfg.CONNECTION_RETRIES + 1)).map oracle)).success = true
  · simp [hs]
  · simp [hs]

/-- `background_connect` on a free lock: the worker performs an AP start
exactly when the retry loop ends in failure. -/
theorem background_connect_apStarts (cfg : Config) (ssid : String) (now : Int)
    (oracle : Nat → AttemptInput) (c : ConnState) (m : MonState) :
    (background_connect cfg ssid now oracle false c m).apStarts =
      (if (runRetryLoop ((List.range (cfg.CONNECTION_RETRIES + 1)).map oracle)).success
       then 0 else 1) := by
  rw [background_connect_run]
  by_cases hs : (runRetryLoop ((List.range (cfg.CONNECTION_RETRIES + 1)).map oracle)).success = true
  · simp [hs]
  · simp [hs]

/-- C3: a fully successful manual reconnection (`background_connect` whose
retry loop reports success) clears the restart history and cached backoff and
re-enters the connected state; the supervisor loop's next pass moves
`CONNECTED` to `MONITORING` without touching the history, and the next AP
start (`safe_restart_ap`) after that clean reconnection applies zero backoff
(the restart threshold being at least 2, as with the default value 3). -/
theorem C3_success_clears_restart_history (cfg : Config) (ssid : String) (now : Int)
    (oracle : Nat → AttemptInput) (c : ConnState) (m : MonState)
    (hmax : 2 ≤ cfg.MAX_RESTARTS_PER_WINDOW)
    (hs : (runRetryLoop ((List.range (cfg.CONNECTION_RETRIES + 1)).map oracle)).success = true) :
    (background_connect cfg ssid now oracle false c m).mon.state = MState.CONNECTED
    ∧ (background_connect cfg ssid now oracle false c m).mon.restart_history = []
    ∧ (background_connect cfg ssid now oracle false c m).mon.current_backoff = 0
    ∧ (background_connect cfg ssid now oracle false c m).apStarts = 0
    ∧ (∀ t' : Int,
        (monitorIter cfg t' (background_connect cfg ssid now oracle false c m).mon true).1.state
            = MState.MONITORING
        ∧ (monitorIter cfg t' (background_connect cfg ssid now oracle false c m).mon
            true).1.restart_history = []
        ∧ (monitorIter cfg t' (background_connect cfg ssid now oracle false c m).mon
            true).2.2 = false)
    ∧ (∀ t' : Int,
        (safe_restart_ap cfg t' (background_connect cfg ssid now oracle false c m).mon).2 = 0) := by
  have hmon : (background_connect cfg ssid now oracle false c m).mon =
      { m with state := MState.CONNECTED, last_ssid := some ssid, monitor_active := true
               restart_history := [], current_backoff := 0 } := by
    rw [background_connect_run]; simp [hs]
  have hap : (background_connect cfg ssid now oracle false c m).apStarts = 0 := by
    rw [background_connect_run]; simp [hs]
  refine ⟨by rw [hmon], by rw [hmon], by rw [hmon], hap, ?_, ?_⟩
  · intro t'
    rw [hmon]
    refine ⟨?_, ?_, ?_⟩ <;> simp [monitorIter, monitorStep]
  · intro t'
    exact safe_restart_ap_backoff_after_clear cfg t' _ (by rw [hmon]) hmax

/-- Witness for C3: a successful manual attempt at the default configuration,
starting from a monitor state holding a dirty restart history `[40, 60, 80]`
and a cached backoff of 30. -/
theorem C3_witness :
    (background_connect defaultConfig "homelan" 100 (fun _ => ⟨true, "", true⟩) false
        initialConnState ⟨MState.AP_MODE, false, none, [40, 60, 80], 30⟩).mon.state
        = MState.CONNECTED
    ∧ (background_connect defaultConfig "homelan" 100 (fun _ => ⟨true, "", true⟩) false
        initialConnState ⟨MState.AP_MODE, false, none, [40, 60, 80], 30⟩).mon.restart_history = []
    ∧ (background_connect defaultConfig "homelan" 100 (fun _ => ⟨true, "", true⟩) false
        initialConnState ⟨MState.AP_MODE, false, none, [40, 60, 80], 30⟩).mon.current_backoff = 0
    ∧ (background_connect defaultConfig "homelan" 100 (fun _ => ⟨true, "", true⟩) false
        initialConnState ⟨MState.AP_MODE, false, none, [40, 60, 80], 30⟩).apStarts = 0
    ∧ (∀ t' : Int,
        (monitorIter defaultConfig t'
            (background_connect defaultConfig "homelan" 100 (fun _ => ⟨true, "", true⟩) false
              initialConnState ⟨MState.AP_MODE, false, none, [40, 60, 80], 30⟩).mon true).1.state
            = MState.MONITORING
        ∧ (monitorIter defaultConfig t'
            (background_connect defaultConfig "homelan" 100 (fun _ => ⟨true, "", true⟩) false
              initialConnState ⟨MState.AP_MODE, false, none, [40, 60, 80], 30⟩).mon
            true).1.restart_history = []
        ∧ (monitorIter defaultConfig t'
            (background_connect defaultConfig "homelan" 100 (fun _ => ⟨true, "", true⟩) false
              initialConnState ⟨MState.AP_MODE, false, none, [40, 60, 80], 30⟩).mon
            true).2.2 = false)
    ∧ (∀ t' : Int,
        (safe_restart_ap defaultConfig t'
          (background_connect defaultConfig "homelan" 100 (fun _ => ⟨true, "", true⟩) false
            initialConnState ⟨MState.AP_MODE, false, none, [40, 60, 80], 30⟩).mon).2 = 0) :=
  C3_success_clears_restart_history defaultConfig "homelan" 100 (fun _ => ⟨true, "", true⟩)
    initialConnState ⟨MState.AP_MODE, false, none, [40, 60, 80], 30⟩ (by decide) (by decide)

/-- C4 counterexample: a manual attempt rejected by the busy
attempt-exclusivity lock does not record `succeeded = false` and does not
store an "attempt already in progress" error — the shared connection state
keeps its prior values (`success = none`, `error = none`), refuting the
claim's "immediately records succeeded=false with an error" part (app.py
lines 410-412 only log a warning and return). -/
theorem C4_cex :
    (background_connect defaultConfig "net" 0 (fun _ => ⟨true, "", true⟩) true
        initialConnState initialMonState).conn.success = none
    ∧ ¬ ((background_connect defaultConfig "net" 0 (fun _ => ⟨true, "", true⟩) true
        initialConnState initialMonState).conn.success = some false)
    ∧ (background_connect defaultConfig "net" 0 (fun _ => ⟨true, "", true⟩) true
        initialConnState initialMonState).conn.error = none := by decide

/-- C4 (amended): of two concurrent manual attempts, exactly one acquires the
attempt-exclusivity lock and proceeds to call Network Control (at least one
join); the other fails the non-blocking acquisition and returns immediately —
it performs no join and leaves every field of the shared connection state and
monitor state untouched (it does not record `succeeded = false`; the
rejection is only logged). -/
theorem C4_amended_exclusive_attempt (cfg : Config) (ssid₁ ssid₂ : String)
    (now₁ now₂ : Int) (o₁ o₂ : Nat → AttemptInput) (c : ConnState) (m : MonState) :
    (background_connect cfg ssid₁ now₁ o₁ false c m).acquired = true
    ∧ 1 ≤ (background_connect cfg ssid₁ now₁ o₁ false c m).joins
    ∧ (∀ (c' : ConnState) (m' : MonState),
        (background_connect cfg ssid₂ now₂ o₂ true c' m').acquired = false
        ∧ (background_connect cfg ssid₂ now₂ o₂ true c' m').conn = c'
        ∧ (background_connect cfg ssid₂ now₂ o₂ true c' m').mon = m'
        ∧ (background_connect cfg ssid₂ now₂ o₂ true c' m').joins = 0) := by
  refine ⟨?_, ?_, fun c' m' => ⟨rfl, rfl, rfl, rfl⟩⟩
  · rw [background_connect_run]
    by_cases hs : (runRetryLoop ((List.range (cfg.CONNECTION_RETRIES + 1)).map o₁)).success = true
    · simp [hs]
    · simp [hs]
  · rw [background_connect_joins]
    cases hat : (List.range (cfg.CONNECTION_RETRIES + 1)).map o₁ with
    | nil => simp at hat
    | cons a rest => exact runRetryLoop_joins_pos a rest

/-- C5 counterexample: after a failed manual attempt (default configuration,
every join failing), the worker itself has already performed the AP start
(`apStarts = 1`) and left the monitor state in `AP_MODE`; the supervisor
loop's next pass on that state is a no-op — `monitorStep AP_MODE _` neither
transitions nor requests an AP start.  This refutes the claim that the
failure sets a `recentManualFailure` flag which the supervisor loop consumes
on its next pass to skip a reconnect wait and go to ApActive: no such flag
exists and the loop performs no such transition. -/
theorem C5_cex :
    (background_connect defaultConfig "homenet" 5 (fun _ => ⟨false, "assoc failure", false⟩)
        false initialConnState initialMonState).conn.success = some false
    ∧ (background_connect defaultConfig "homenet" 5 (fun _ => ⟨false, "assoc failure", false⟩)
        false initialConnState initialMonState).apStarts = 1
    ∧ (background_connect defaultConfig "homenet" 5 (fun _ => ⟨false, "assoc failure", false⟩)
        false initialConnState initialMonState).mon.state = MState.AP_MODE
    ∧ monitorStep MState.AP_MODE false = (MState.AP_MODE, false)
    ∧ monitorStep MState.AP_MODE true = (MState.AP_MODE, false) := by decide

/-- C5 (amended): a manual connection attempt that concludes with failure
does not signal the supervisor loop through any flag; instead the worker
itself restarts the AP (exactly one AP start, circuit-breaker protected) and
leaves the monitor state in `AP_MODE`, a state on which the supervisor loop's
step is a no-op for every probe outcome. -/
theorem C5_amended_failure_restarts_in_worker (cfg : Config) (ssid : String) (now : Int)
    (oracle : Nat → AttemptInput) (c : ConnState) (m : MonState)
    (hf : (runRetryLoop ((List.range (cfg.CONNECTION_RETRIES + 1)).map oracle)).success = false) :
    (background_connect cfg ssid now oracle false c m).conn.success = some false
    ∧ (background_connect cfg ssid now oracle false c m).mon.state = MState.AP_MODE
    ∧ (background_connect cfg ssid now oracle false c m).apStarts = 1
    ∧ (∀ connected : Bool, monitorStep MState.AP_MODE connected = (MState.AP_MODE, false)) := by
  refine ⟨?_, ?_, ?_, ?_⟩
  · rw [background_connect_conn]; simp [hf]
  · rw [background_connect_run]; simp [hf, safe_restart_ap, record_ap_restart]
  · rw [background_connect_apStarts]; simp [hf]
  · intro connected; cases connected <;> rfl

/-- Witness for C5 (amended): a concrete failed attempt at the default
configuration. -/
theorem C5_amended_witness :
    (background_connect defaultConfig "shedwifi" 11 (fun _ => ⟨false, "key mismatch", false⟩)
        false initialConnState initialMonState).conn.success = some false
    ∧ (background_connect defaultConfig "shedwifi" 11 (fun _ => ⟨false, "key mismatch", false⟩)
        false initialConnState initialMonState).mon.state = MState.AP_MODE
    ∧ (background_connect defaultConfig "shedwifi" 11 (fun _ => ⟨false, "key mismatch", false⟩)
        false initialConnState initialMonState).apStarts = 1
    ∧ (∀ connected : Bool, monitorStep MState.AP_MODE connected = (MState.AP_MODE, false)) :=
  C5_amended_failure_restarts_in_worker defaultConfig "shedwifi" 11
    (fun _ => ⟨false, "key mismatch", false⟩) initialConnState initialMonState (by decide)

/-- C6 counterexample: with the default configuration
(`CONNECTION_RETRIES = 1`) and every join failing, a single manual submission
performs two `connect_to_network` calls, refuting "exactly one join-network
request, with no internal retry loop" (app.py line 434 iterates
`range(CONNECTION_RETRIES + 1)`). -/
theorem C6_cex :
    (background_connect defaultConfig "cafe5g" 7 (fun _ => ⟨false, "no carrier", false⟩)
        false initialConnState initialMonState).joins = 2
    ∧ ¬ ((background_connect defaultConfig "cafe5g" 7 (fun _ => ⟨false, "no carrier", false⟩)
        false initialConnState initialMonState).joins = 1) := by decide

/-- C6 (amended): the worker performs between 1 and `CONNECTION_RETRIES + 1`
join requests (2 with the default configuration): exactly one when the first
join succeeds and verifies, and the full `CONNECTION_RETRIES + 1` when the
attempt concludes in failure; it records failure only after the final
attempt. -/
theorem C6_amended_retry_loop (cfg : Config) (ssid : String) (now : Int)
    (oracle : Nat → AttemptInput) (c : ConnState) (m : MonState) :
    1 ≤ (background_connect cfg ssid now oracle false c m).joins
    ∧ (background_connect cfg ssid now oracle false c m).joins ≤ cfg.CONNECTION_RETRIES + 1
    ∧ ((oracle 0).joinOk = true → (oracle 0).probe = true →
        (background_connect cfg ssid now oracle false c m).joins = 1)
    ∧ ((background_connect cfg ssid now oracle false c m).conn.success = some false →
        (background_connect cfg ssid now oracle false c m).joins = cfg.CONNECTION_RETRIES + 1) := by
  have hlen : ((List.range (cfg.CONNECTION_RETRIES + 1)).map oracle).length =
      cfg.CONNECTION_RETRIES + 1 := by simp
  refine ⟨?_, ?_, ?_, ?_⟩
  · rw [background_connect_joins]
    cases hat : (List.range (cfg.CONNECTION_RETRIES + 1)).map oracle with
    | nil => simp at hat
    | cons a rest => exact runRetryLoop_joins_pos a rest
  · rw [background_connect_joins]
    have hle := runRetryLoop_joins_le ((List.range (cfg.CONNECTION_RETRIES + 1)).map oracle)
    omega
  · intro h0j h0p
    rw [background_connect_joins]
    obtain ⟨rest, hr⟩ : ∃ rest, (List.range (cfg.CONNECTION_RETRIES + 1)).map oracle =
        oracle 0 :: rest := ⟨_, by rw [List.range_succ_eq_map]; rfl⟩
    rw [hr, runRetryLoop_first_ok _ _ h0j h0p]
  · intro hfail
    have hs : (runRetryLoop ((List.range (cfg.CONNECTION_RETRIES + 1)).map oracle)).success
        = false := by
      rw [background_connect_conn] at hfail; simpa using hfail
    rw [background_connect_joins, runRetryLoop_failure_joins _ hs, hlen]

/-- Witness for C6 (amended): a failing run at the default configuration
performs `CONNECTION_RETRIES + 1 = 2` joins. -/
theorem C6_amended_witness :
    1 ≤ (background_connect defaultConfig "pier9" 13 (fun _ => ⟨false, "nope", false⟩)
        false initialConnState initialMonState).joins
    ∧ (background_connect defaultConfig "pier9" 13 (fun _ => ⟨false, "nope", false⟩)
        false initialConnState initialMonState).joins ≤ defaultConfig.CONNECTION_RETRIES + 1
    ∧ (((fun _ : Nat => (⟨false, "nope", false⟩ : AttemptInput)) 0).joinOk = true →
        ((fun _ : Nat => (⟨false, "nope", false⟩ : AttemptInput)) 0).probe = true →
        (background_connect defaultConfig "pier9" 13 (fun _ => ⟨false, "nope", false⟩)
          false initialConnState initialMonState).joins = 1)
    ∧ ((background_connect defaultConfig "pier9" 13 (fun _ => ⟨false, "nope", false⟩)
          false initialConnState initialMonState).conn.success = some false →
        (background_connect defaultConfig "pier9" 13 (fun _ => ⟨false, "nope", false⟩)
          false initialConnState initialMonState).joins = defaultConfig.CONNECTION_RETRIES + 1) :=
  C6_amended_retry_loop defaultConfig "pier9" 13 (fun _ => ⟨false, "nope", false⟩)
    initialConnState initialMonState

/-- C7 counterexample: a manual attempt whose joins all fail ends with the
worker itself invoking the AP start (`apStarts = 1`, via `safe_restart_ap` on
app.py line 481), refuting "the worker never invokes the operation that
starts an access point". -/
theorem C7_cex :
    (background_connect defaultConfig "office" 3 (fun _ => ⟨false, "timeout", false⟩)
        false initialConnState initialMonState).apStarts = 1
    ∧ (background_connect defaultConfig "office" 3 (fun _ => ⟨false, "timeout", false⟩)
        false initialConnState initialMonState).conn.success = some false := by decide

/-- C7 (amended): the worker performs no AP start when it is rejected by the
lock or when the attempt succeeds; when the attempt concludes in failure the
worker itself performs exactly one AP restart (stop then start). -/
theorem C7_amended_ap_start_policy (cfg : Config) (ssid : String) (now : Int)
    (oracle : Nat → AttemptInput) (c : ConnState) (m : MonState) :
    (background_connect cfg ssid now oracle true c m).apStarts = 0
    ∧ ((background_connect cfg ssid now oracle false c m).conn.success = some true →
        (background_connect cfg ssid now oracle false c m).apStarts = 0)
    ∧ ((background_connect cfg ssid now oracle false c m).conn.success = some false →
        (background_connect cfg ssid now oracle false c m).apStarts = 1) := by
  refine ⟨rfl, ?_, ?_⟩
  · intro h
    have hs : (runRetryLoop ((List.range (cfg.CONNECTION_RETRIES + 1)).map oracle)).success
        = true := by
      rw [background_connect_conn] at h; simpa using h
    rw [background_connect_apStarts]; simp [hs]
  · intro h
    have hs : (runRetryLoop ((List.range (cfg.CONNECTION_RETRIES + 1)).map oracle)).success
        = false := by
      rw [background_connect_conn] at h; simpa using h
    rw [background_connect_apStarts]; simp [hs]

/-- Witness for C7 (amended): concrete successful and rejected runs at the
default configuration. -/
theorem C7_amended_witness :
    (background_connect defaultConfig "dock" 17 (fun _ => ⟨true, "", true⟩) true
        initialConnState initialMonState).apStarts = 0
    ∧ ((background_connect defaultConfig "dock" 17 (fun _ => ⟨true, "", true⟩) false
          initialConnState initialMonState).conn.success = some true →
        (background_connect defaultConfig "dock" 17 (fun _ => ⟨true, "", true⟩) false
          initialConnState initialMonState).apStarts = 0)
    ∧ ((background_connect defaultConfig "dock" 17 (fun _ => ⟨true, "", true⟩) false
          initialConnState initialMonState).conn.success = some false →
        (background_connect defaultConfig "dock" 17 (fun _ => ⟨true, "", true⟩) false
          initialConnState initialMonState).apStarts = 1) :=
  C7_amended_ap_start_policy defaultConfig "dock" 17 (fun _ => ⟨true, "", true⟩)
    initialConnState initialMonState

/-- C8 counterexample: with the default configuration, the first attempt's
join reports success but the re-probe disagrees, and the retried second
attempt succeeds and verifies: the manual attempt's final recorded result is
`succeeded = true` with no error — refuting the claim that a
join-success/probe-disagree event forces the final recorded result to be a
failure carrying "established but verification failed". -/
theorem C8_cex :
    ((fun i : Nat => if i = 0 then (⟨true, "", false⟩ : AttemptInput)
        else ⟨true, "", true⟩) 0).joinOk = true
    ∧ ((fun i : Nat => if i = 0 then (⟨true, "", false⟩ : AttemptInput)
        else ⟨true, "", true⟩) 0).probe = false
    ∧ (background_connect defaultConfig "attic" 9
        (fun i => if i = 0 then ⟨true, "", false⟩ else ⟨true, "", true⟩)
        false initialConnState initialMonState).conn.success = some true
    ∧ (background_connect defaultConfig "attic" 9
        (fun i => if i = 0 then ⟨true, "", false⟩ else ⟨true, "", true⟩)
        false initialConnState initialMonState).conn.error = none := by decide

/-- C8 (amended): per attempt, a join-reported success whose re-probe
disagrees is downgraded.  If every scheduled attempt has a succeeding join
whose re-probe reports disconnected, the final recorded result is failure
with the distinguishing error "Connection established but verification
failed"; and `succeeded = true` is only ever recorded when some attempt's
join succeeded and its re-probe agreed — a join success is never recorded as
`succeeded = true` while the subsequent probe disagrees. -/
theorem C8_amended_verification (cfg : Config) (ssid : String) (now : Int)
    (oracle : Nat → AttemptInput) (c : ConnState) (m : MonState) :
    ((∀ i, i < cfg.CONNECTION_RETRIES + 1 →
        (oracle i).joinOk = true ∧ (oracle i).probe = false) →
      (background_connect cfg ssid now oracle false c m).conn.success = some false
      ∧ (background_connect cfg ssid now oracle false c m).conn.error = some verifyFailMsg)
    ∧ ((background_connect cfg ssid now oracle false c m).conn.success = some true →
        ∃ i, i < cfg.CONNECTION_RETRIES + 1
          ∧ (oracle i).joinOk = true ∧ (oracle i).probe = true) := by
  constructor
  · intro hall
    have hmem : ∀ x ∈ (List.range (cfg.CONNECTION_RETRIES + 1)).map oracle,
        x.joinOk = true ∧ x.probe = false := by
      intro x hx
      obtain ⟨i, hi, rfl⟩ := List.mem_map.mp hx
      exact hall i (List.mem_range.mp hi)
    have hne : (List.range (cfg.CONNECTION_RETRIES + 1)).map oracle ≠ [] := by simp
    have hloop := runRetryLoop_all_mismatch _ hne hmem
    rw [background_connect_conn]
    simp [hloop]
  · intro h
    have hs : (runRetryLoop ((List.range (cfg.CONNECTION_RETRIES + 1)).map oracle)).success
        = true := by
      rw [background_connect_conn] at h; simpa using h
    obtain ⟨x, hx, hj, hp⟩ := runRetryLoop_success_exists _ hs
    obtain ⟨i, hi, rfl⟩ := List.mem_map.mp hx
    exact ⟨i, List.mem_range.mp hi, hj, hp⟩

/-- Witness for C8 (amended): every attempt joins but fails verification at
the default configuration. -/
theorem C8_amended_witness :
    ((∀ i, i < defaultConfig.CONNECTION_RETRIES + 1 →
        ((fun _ : Nat => (⟨true, "", false⟩ : AttemptInput)) i).joinOk = true
        ∧ ((fun _ : Nat => (⟨true, "", false⟩ : AttemptInput)) i).probe = false) →
      (background_connect defaultConfig "roof" 21 (fun _ => ⟨true, "", false⟩)
        false initialConnState initialMonState).conn.success = some false
      ∧ (background_connect defaultConfig "roof" 21 (fun _ => ⟨true, "", false⟩)
        false initialConnState initialMonState).conn.error = some verifyFailMsg)
    ∧ ((background_connect defaultConfig "roof" 21 (fun _ => ⟨true, "", false⟩)
          false initialConnState initialMonState).conn.success = some true →
        ∃ i, i < defaultConfig.CONNECTION_RETRIES + 1
          ∧ ((fun _ : Nat => (⟨true, "", false⟩ : AttemptInput)) i).joinOk = true
          ∧ ((fun _ : Nat => (⟨true, "", false⟩ : AttemptInput)) i).probe = true) :=
  C8_amended_verification defaultConfig "roof" 21 (fun _ => ⟨true, "", false⟩)
    initialConnState initialMonState

/-- Skipping `k` characters in the replacement scan is dropping them. -/
theorem replAux_skip (p R : List Char) :
    ∀ (l : List Char) (k : Nat), replAux p R k l = replAux p R 0 (l.drop k) := by
  intro l
  induction l with
  | nil => intro k; cases k <;> rfl
  | cons c rest ih =>
    intro k
    cases k with
    | zero => rfl
    | succ k =>
      show replAux p R k rest = replAux p R 0 ((c :: rest).drop (k + 1))
      rw [List.drop_succ_cons]
      exact ih k

/-- `pyReplace` on the empty string. -/
theorem pyReplace_nil (p R : List Char) : pyReplace p R [] = [] := rfl

/-- `pyReplace` when the pattern matches at the current position: emit the
replacement and resume after the matched occurrence. -/
theorem pyReplace_pos (p R : List Char) (c : Char) (rest : List Char)
    (hp : p ≠ []) (hpre : p.isPrefixOf (c :: rest) = true) :
    pyReplace p R (c :: rest) = R ++ pyReplace p R ((c :: rest).drop p.length) := by
  cases p with
  | nil => exact absurd rfl hp
  | cons q p' =>
    show replAux (q :: p') R 0 (c :: rest) = _
    rw [replAux, if_pos hpre, replAux_skip]
    rfl

/-- `pyReplace` when the pattern does not match at the current position: keep
the character and scan on. -/
theorem pyReplace_neg (p R : List Char) (c : Char) (rest : List Char)
    (hpre : p.isPrefixOf (c :: rest) = false) :
    pyReplace p R (c :: rest) = c :: pyReplace p R rest := by
  show replAux p R 0 (c :: rest) = _
  rw [replAux, if_neg (by simp [hpre])]
  rfl

/-- A non-empty infix of an append either contributes a character to the left
part or is an infix of the right part. -/
theorem infix_append_split {α : Type} {p : List α} (hp : p ≠ []) :
    ∀ A B : List α, p <:+: A ++ B → (∃ a ∈ p, a ∈ A) ∨ p <:+: B := by
  intro A
  induction A with
  | nil => intro B h; right; simpa using h
  | cons a A' ih =>
    intro B h
    rcases List.infix_cons_iff.mp (by simpa using h) with hpfx | hinf
    · left
      cases p with
      | nil => exact absurd rfl hp
      | cons p0 p' =>
        rcases List.cons_prefix_cons.mp hpfx with ⟨heq, _⟩
        exact ⟨p0, by simp, by simp [heq]⟩
    · rcases ih B hinf with ⟨x, hx, hxA⟩ | hB
      · exact Or.inl ⟨x, hx, by simp [hxA]⟩
      · exact Or.inr hB

/-- When the pattern's characters are disjoint from the replacement's, a
non-empty prefix of the replaced string drawn from the pattern's characters
was already a prefix of the original string. -/
theorem pyReplace_prefix_transfer (p R : List Char) (hR : R ≠ [])
    (hdisj : ∀ a ∈ p, a ∉ R) :
    ∀ (n : Nat) (l q : List Char), l.length ≤ n → q ≠ [] → (∀ a ∈ q, a ∈ p) →
      q <+: pyReplace p R l → q <+: l := by
  intro n
  induction n with
  | zero =>
    intro l q hl hq _ hpre
    have hnil : l = [] := List.length_eq_zero.mp (Nat.le_zero.mp hl)
    subst hnil
    rw [pyReplace_nil] at hpre
    exact absurd (List.prefix_nil.mp hpre) hq
  | succ n ih =>
    intro l q hl hq hsub hpre
    cases l with
    | nil =>
      rw [pyReplace_nil] at hpre
      exact absurd (List.prefix_nil.mp hpre) hq
    | cons c rest =>
      cases hpc : p.isPrefixOf (c :: rest) with
      | true =>
        have hpne : p ≠ [] := by
          intro hh
          apply hq
          cases q with
          | nil => rfl
          | cons q0 q' =>
            have hmem := hsub q0 (by simp)
            rw [hh] at hmem
            simp at hmem
        rw [pyReplace_pos p R c rest hpne hpc] at hpre
        cases q with
        | nil => exact absurd rfl hq
        | cons q0 q' =>
          cases R with
          | nil => exact absurd rfl hR
          | cons r0 R' =>
            rcases List.cons_prefix_cons.mp (by simpa using hpre) with ⟨heq, _⟩
            exact absurd (by simp [heq] : q0 ∈ r0 :: R')
              (hdisj q0 (hsub q0 (by simp)))
      | false =>
        rw [pyReplace_neg p R c rest hpc] at hpre
        cases q with
        | nil => exact absurd rfl hq
        | cons q0 q' =>
          rcases List.cons_prefix_cons.mp hpre with ⟨heq, hq'⟩
          by_cases hq'e : q' = []
          · subst hq'e
            exact List.cons_prefix_cons.mpr ⟨heq, List.nil_prefix⟩
          · have hrest : rest.length ≤ n := by simp at hl; omega
            have h1 := ih rest q' hrest hq'e (fun a ha => hsub a (by simp [ha])) hq'
            exact List.cons_prefix_cons.mpr ⟨heq, h1⟩

/-- When the (non-empty) pattern's characters are disjoint from the (non-empty)
replacement's, the replaced string contains no occurrence of the pattern. -/
theorem pyReplace_no_infix (p R : List Char) (hp : p ≠ []) (hR : R ≠ [])
    (hdisj : ∀ a ∈ p, a ∉ R) :
    ∀ (n : Nat) (l : List Char), l.length ≤ n → ¬ p <:+: pyReplace p R l := by
  intro n
  induction n with
  | zero =>
    intro l hl hinf
    have hnil : l = [] := List.length_eq_zero.mp (Nat.le_zero.mp hl)
    subst hnil
    rw [pyReplace_nil] at hinf
    exact hp (List.infix_nil.mp hinf)
  | succ n ih =>
    intro l hl hinf
    cases l with
    | nil =>
      rw [pyReplace_nil] at hinf
      exact hp (List.infix_nil.mp hinf)
    | cons c rest =>
      cases hpc : p.isPrefixOf (c :: rest) with
      | true =>
        rw [pyReplace_pos p R c rest hp hpc] at hinf
        rcases infix_append_split hp R (pyReplace p R ((c :: rest).drop p.length)) hinf with
          ⟨a, ha, haR⟩ | hX
        · exact hdisj a ha haR
        · have hp1 : 1 ≤ p.length := by
            cases p with
            | nil => exact absurd rfl hp
            | cons _ _ => simp
          have hlen : ((c :: rest).drop p.length).length ≤ n := by
            simp only [List.length_drop, List.length_cons] at *
            omega
          exact ih _ hlen hX
      | false =>
        rw [pyReplace_neg p R c rest hpc] at hinf
        rcases List.infix_cons_iff.mp hinf with hpfx | hX
        · have hpre2 : p <+: pyReplace p R (c :: rest) := by
            rw [pyReplace_neg p R c rest hpc]
            exact hpfx
          have htr := pyReplace_prefix_transfer p R hR hdisj (n + 1) (c :: rest) p hl hp
            (fun a ha => ha) hpre2
          rw [← List.isPrefixOf_iff_prefix] at htr
          rw [hpc] at htr
          exact Bool.false_ne_true htr
        · have hrest : rest.length ≤ n := by simp at hl; omega
          exact ih rest hrest hX

/-- C9 counterexample: with the configured AP passphrase `"REDACTED"` (an
8-character value, unconstrained by any validation of `AP_PASSWORD`), a stored
error `"bad pass REDACTED"` is exported as `"bad pass ***REDACTED***"` — which
still contains the passphrase as a substring: the single `str.replace` of
app.py line 267 lets the replacement marker recombine into the secret,
refuting the claim that the export contains no occurrence of the passphrase
for every passphrase and error. -/
theorem C9_cex :
    check_status_error "REDACTED"
        { in_progress := false, ssid := none, timestamp := none, success := some false
          error := some "bad pass REDACTED" } = some "bad pass ***REDACTED***"
    ∧ ("REDACTED" : String).data <:+: ("bad pass ***REDACTED***" : String).data := by
  constructor
  · decide
  · exact ⟨("bad pass ***" : String).data, ("***" : String).data, by decide⟩

/-- C9 (amended): the status export's `error` is the stored error with every
left-to-right non-overlapping occurrence of the passphrase replaced by
`***REDACTED***`.  Whenever the non-empty passphrase shares no character with
the marker `***REDACTED***`, the exported error contains no occurrence of the
passphrase; a passphrase overlapping the marker's characters (such as
`"REDACTED"` itself) can, however, survive the redaction. -/
theorem C9_amended_redaction (pw err s : String) (c : ConnState)
    (hpw : pw ≠ "")
    (hdisj : ∀ a ∈ pw.data, a ∉ redactMarker.data)
    (herr : c.error = some err)
    (hexp : check_status_error pw c = some s) :
    ¬ (pw.data <:+: s.data) := by
  have hRne : redactMarker.data ≠ [] := by decide
  have hpne : pw.data ≠ [] := fun hd => hpw (String.ext hd)
  simp only [check_status_error, herr] at hexp
  by_cases herre : err = ""
  · rw [if_pos herre] at hexp
    simp at hexp
  · rw [if_neg herre] at hexp
    have hsval : s = sanitize_output pw err := (Option.some.inj hexp).symm
    subst hsval
    rw [sanitize_output, if_neg herre]
    show ¬ pw.data <:+: pyReplace pw.data redactMarker.data err.data
    exact pyReplace_no_infix pw.data redactMarker.data hpne hRne hdisj
      err.data.length err.data le_rfl

/-- Witness for C9 (amended): passphrase `"xyzpass1"`, whose characters avoid
the marker's, never survives the redaction of `"bad xyzpass1 here"`. -/
theorem C9_witness :
    ¬ (("xyzpass1" : String).data <:+: ("bad ***REDACTED*** here" : String).data) :=
  C9_amended_redaction "xyzpass1" "bad xyzpass1 here" "bad ***REDACTED*** here"
    { in_progress := false, ssid := none, timestamp := none, success := some false
      error := some "bad xyzpass1 here" }
    (by decide) (by decide) (by decide) (by decide)

end WifiSetup
